import Mathlib

/-!
Shallow embedding of the core of the video-production repository
(src/core/parser.py, src/core/base_module.py, src/core/engine.py).

Conventions of the embedding:
* Python strings are `List Char` (converted to `String` only where the source
  stores them in object fields); all inputs of interest are ASCII.
* Python floats are modelled as exact unnormalized rationals (`PyFloat`,
  a numerator/denominator pair with all arithmetic by cross multiplication).
  Python uses binary floating point; the model is exact instead, which agrees
  with Python on the integral-valued times exercised here.
* A Python `ValueError` raised by the parser is `Except.error` with a
  `ParseErr` describing which of the three raise sites fired; an uncaught
  error aborts the whole parse, as in the source.
* Python dicts with string keys are association lists with unique keys
  (`dictSet` overwrites in place, preserving insertion position, exactly as
  Python assignment to an existing key does).
-/

namespace VideoProd

/-- Exact rational stand-in for a Python float.  All values constructed by the
parser have a positive denominator. -/
structure PyFloat where
  num : Int
  den : Nat
  deriving DecidableEq, Repr

def PyFloat.add (a b : PyFloat) : PyFloat :=
  ⟨a.num * (b.den : Int) + b.num * (a.den : Int), a.den * b.den⟩

def PyFloat.sub (a b : PyFloat) : PyFloat :=
  ⟨a.num * (b.den : Int) - b.num * (a.den : Int), a.den * b.den⟩

def PyFloat.mul (a b : PyFloat) : PyFloat :=
  ⟨a.num * b.num, a.den * b.den⟩

/-- Value comparison a < b (Python float comparison), by cross multiplication;
denominators of constructed values are positive. -/
def PyFloat.lt (a b : PyFloat) : Bool :=
  decide (a.num * (b.den : Int) < b.num * (a.den : Int))

/-- Value equality (Python == on numbers). -/
def PyFloat.eqv (a b : PyFloat) : Bool :=
  a.num * (b.den : Int) == b.num * (a.den : Int)

def PyFloat.ofNat (n : Nat) : PyFloat := ⟨n, 1⟩

/-- Python float.is_integer(). -/
def PyFloat.isInt (a : PyFloat) : Bool := a.num % (a.den : Int) == 0

/-- Python int(x) on a float that is_integer (the only place the source calls
it); the division is exact there. -/
def PyFloat.intVal (a : PyFloat) : Int := a.num / (a.den : Int)

/-- A Python value as it appears in parsed parameters and Scene fields:
None, a string, an int, or a float (`_parse_params` coerces numerals). -/
inductive PyVal where
  | none
  | str (s : String)
  | int (n : Int)
  | float (q : PyFloat)
  deriving DecidableEq, Repr

/-- A Python dict with string keys, as an insertion-ordered assoc list with
unique keys. -/
abbrev PyDict := List (String × PyVal)

/-- Python dict assignment d[k] = v: overwrites in place if the key exists
(keys are unique, so replacing the first occurrence is replacement in
place), appends otherwise. -/
def dictSet : PyDict → String → PyVal → PyDict
  | [], k, v => [(k, v)]
  | p :: d, k, v => if p.1 == k then (k, v) :: d else p :: dictSet d k v

/-- Python d.get(k) / d[k] lookup. -/
def dictGet : PyDict → String → Option PyVal
  | [], _ => Option.none
  | p :: d, k => if p.1 == k then some p.2 else dictGet d k

/-- Python d.pop(k, default): the looked-up value (if any) and the dict with
the key removed. -/
def dictPop (d : PyDict) (k : String) : Option PyVal × PyDict :=
  (dictGet d k, d.filter (fun p => !(p.1 == k)))

/-- Python str.isspace characters (ASCII subset relevant here). -/
def pyIsSpace (c : Char) : Bool :=
  c == ' ' || c == '\t' || c == '\n' || c == '\r' ||
  c == Char.ofNat 11 || c == Char.ofNat 12

/-- Python str.strip(). -/
def pyStrip (l : List Char) : List Char :=
  ((l.dropWhile pyIsSpace).reverse.dropWhile pyIsSpace).reverse

/-- Python str.strip(q) for a single character q: removes every leading and
trailing occurrence of q. -/
def stripChar (q : Char) (l : List Char) : List Char :=
  ((l.dropWhile (fun d => d == q)).reverse.dropWhile (fun d => d == q)).reverse

/-- value.strip('"').strip("'") from `_parse_params` (double quotes first,
then single quotes, as in the source). -/
def stripQuotes (l : List Char) : List Char :=
  stripChar (Char.ofNat 39) (stripChar (Char.ofNat 34) l)

def digitsVal (l : List Char) : Nat :=
  l.foldl (fun acc c => acc * 10 + (c.toNat - 48)) 0

/-- Exponent suffix of a Python float literal (digits after e/E and an
optional sign); fails if no digits or trailing garbage. -/
def pyExpDigits (base : PyFloat) (pos : Bool) (r : List Char) : Option PyFloat :=
  let ds := r.takeWhile Char.isDigit
  if ds.isEmpty || !(r.dropWhile Char.isDigit).isEmpty then Option.none
  else if pos then some ⟨base.num * (10 ^ digitsVal ds : Nat), base.den⟩
  else some ⟨base.num, base.den * 10 ^ digitsVal ds⟩

def pyExp (base : PyFloat) (r : List Char) : Option PyFloat :=
  match r with
  | '-' :: r2 => pyExpDigits base false r2
  | '+' :: r2 => pyExpDigits base true r2
  | _ => pyExpDigits base true r

/-- Mantissa of a Python float literal: digits, optional point and fraction
digits, optional exponent; at least one digit is required. -/
def pyFloatCore (sgn : Int) (l : List Char) : Option PyFloat :=
  let ip := l.takeWhile Char.isDigit
  let l2 := l.dropWhile Char.isDigit
  let fr : List Char × List Char :=
    match l2 with
    | '.' :: r => (r.takeWhile Char.isDigit, r.dropWhile Char.isDigit)
    | _ => ([], l2)
  if ip.isEmpty && fr.1.isEmpty then Option.none
  else
    let base : PyFloat :=
      ⟨sgn * ((digitsVal ip * 10 ^ fr.1.length + digitsVal fr.1 : Nat) : Int),
       10 ^ fr.1.length⟩
    match fr.2 with
    | [] => some base
    | 'e' :: r => pyExp base r
    | 'E' :: r => pyExp base r
    | _ => Option.none

/-- Python float(s) on the decimal-literal subset (strip, optional sign,
digits / fraction / exponent).  inf, nan, underscore separators and non-ASCII
digits are outside the model; none of the analysed inputs use them. -/
def pyFloat (l0 : List Char) : Option PyFloat :=
  match pyStrip l0 with
  | '-' :: r => pyFloatCore (-1) r
  | '+' :: r => pyFloatCore 1 r
  | l => pyFloatCore 1 l

/-- The three ValueError raise sites of the parser: wrong hyphen arity in a
time range, more than three colon components in a time, and a float()
conversion failure. -/
inductive ParseErr where
  | invalidTimestampFormat (ts : String)
  | invalidTimeFormat (t : String)
  | floatConvError (t : String)
  deriving DecidableEq, Repr

def pyFloatE (l : List Char) : Except ParseErr PyFloat :=
  match pyFloat l with
  | some q => .ok q
  | Option.none => .error (.floatConvError (String.mk l))

/-- `OutlineParser._time_to_seconds`: SS, MM:SS or HH:MM:SS with components
weighted 1 / 60 / 3600. -/
def time_to_seconds (t : List Char) : Except ParseErr PyFloat :=
  match t.splitOn ':' with
  | [p0] => pyFloatE p0
  | [p0, p1] =>
    match pyFloatE p0 with
    | .error er => .error er
    | .ok m =>
      match pyFloatE p1 with
      | .error er => .error er
      | .ok s => .ok ((m.mul (PyFloat.ofNat 60)).add s)
  | [p0, p1, p2] =>
    match pyFloatE p0 with
    | .error er => .error er
    | .ok h =>
      match pyFloatE p1 with
      | .error er => .error er
      | .ok m =>
        match pyFloatE p2 with
        | .error er => .error er
        | .ok s => .ok (((h.mul (PyFloat.ofNat 3600)).add (m.mul (PyFloat.ofNat 60))).add s)
  | _ => .error (.invalidTimeFormat (String.mk t))

/-- `OutlineParser._parse_timestamp`: split on every hyphen; exactly two
parts are required; no check relates start and end. -/
def parse_timestamp (ts : List Char) : Except ParseErr (PyFloat × PyFloat) :=
  match ts.splitOn '-' with
  | [a, b] =>
    match time_to_seconds (pyStrip a) with
    | .error er => .error er
    | .ok s =>
      match time_to_seconds (pyStrip b) with
      | .error er => .error er
      | .ok e => .ok (s, e)
  | _ => .error (.invalidTimestampFormat (String.mk ts))

/-- The literal separator of re.split(r'\n## ', content) in
`OutlineParser.parse` (the pattern has no metacharacters, so the split is a
plain substring split). -/
def SEPchars : List Char := ['\n', '#', '#', ' ']

def consHead (c : Char) : List (List Char) → List (List Char)
  | chunk :: chunks => (c :: chunk) :: chunks
  | [] => [[c]]

/-- re.split(r'\n## ', content): split at every non-overlapping occurrence of
the separator, scanning left to right. -/
def splitSEP : List Char → List (List Char)
  | '\n' :: '#' :: '#' :: ' ' :: rest => [] :: splitSEP rest
  | c :: cs => consHead c (splitSEP cs)
  | [] => [[]]

/-- The tail \s*\[(.+?)\] of the header regex, tried after a candidate end of
group 1: skip whitespace, require a bracket, then the lazily shortest
nonempty group 2 closed by a bracket.  Callers pass single lines (no
newline), so the dot/newline distinction of the regex does not arise. -/
def matchBracketTail (l : List Char) : Option (List Char) :=
  match l.dropWhile pyIsSpace with
  | '[' :: c :: rest =>
    if rest.contains ']' then some (c :: rest.takeWhile (fun d => !(d == ']')))
    else Option.none
  | _ => Option.none

/-- Backtracking loop of re.match(r'(.+?)\s*\[(.+?)\]', header): the lazy
group 1 grows one character at a time until the bracketed tail matches. -/
def headerFind : List Char → List Char → Option (List Char × List Char)
  | _, [] => Option.none
  | g1, c :: rest =>
    match matchBracketTail rest with
    | some g2 => some (g1 ++ [c], g2)
    | Option.none => headerFind (g1 ++ [c]) rest

/-- re.match(r'(.+?)\s*\[(.+?)\]', header) from `_parse_section`, returning
(group 1, group 2) on success. -/
def headerMatch (l : List Char) : Option (List Char × List Char) :=
  headerFind [] l

/-- One iteration of the `_parse_params` loop: strip the line, skip blanks
and comment lines, split at the first colon, strip and unquote the value and
coerce it to a number when it parses as one. -/
def coerceVal (v : List Char) : PyVal :=
  match pyFloat v with
  | some q => if q.isInt then .int q.intVal else .float q
  | Option.none => .str (String.mk v)

def lineKV (line : List Char) : Option (String × PyVal) :=
  match pyStrip line with
  | [] => Option.none
  | c :: cs =>
    if c == '#' then Option.none
    else if (c :: cs).contains ':' then
      some (String.mk (pyStrip ((c :: cs).takeWhile (fun d => !(d == ':')))),
        coerceVal (stripQuotes (pyStrip (((c :: cs).dropWhile (fun d => !(d == ':'))).tail))))
    else Option.none

/-- One iteration of the `_parse_params` loop on the running dict. -/
def paramStep (d : PyDict) (line : List Char) : PyDict :=
  match lineKV line with
  | some kv => dictSet d kv.1 kv.2
  | Option.none => d

/-- `OutlineParser._parse_params`: fold the KEY: value lines into a dict;
assignment to an existing key overwrites it (later lines win). -/
def parse_params (lines : List (List Char)) : PyDict :=
  lines.foldl paramStep []

/-- The Scene dataclass of src/core/parser.py.  Field order matches the
dataclass; `module` and the five hint fields default to None, `text` to the
empty string. -/
structure Scene where
  title : String
  timestamp : String
  start_time : PyFloat
  end_time : PyFloat
  duration : PyFloat
  text : PyVal
  module : PyVal
  scene : PyVal
  component : PyVal
  clip : PyVal
  image : PyVal
  chart : PyVal
  data : PyVal
  params : PyDict
  deriving DecidableEq, Repr

/-- Scene.__post_init__: recompute duration as end - start when the stored
duration equals 0 (numeric equality). -/
def scenePostInit (sc : Scene) : Scene :=
  if sc.duration.eqv ⟨0, 1⟩ then
    Scene.mk sc.title sc.timestamp sc.start_time sc.end_time
      (sc.end_time.sub sc.start_time) sc.text sc.module sc.scene sc.component
      sc.clip sc.image sc.chart sc.data sc.params
  else sc

/-- Scene construction in `_parse_section`: duration = end - start, the eight
recognized keys popped from the params dict (TEXT, MODULE, SCENE, COMPONENT,
CLIP, IMAGE, CHART, DATA, in source order), the remainder kept as params. -/
def buildScene (title timestamp : String) (s e : PyFloat) (ps : PyDict) : Scene :=
  let p1 := dictPop ps "TEXT"
  let p2 := dictPop p1.2 "MODULE"
  let p3 := dictPop p2.2 "SCENE"
  let p4 := dictPop p3.2 "COMPONENT"
  let p5 := dictPop p4.2 "CLIP"
  let p6 := dictPop p5.2 "IMAGE"
  let p7 := dictPop p6.2 "CHART"
  let p8 := dictPop p7.2 "DATA"
  scenePostInit (Scene.mk title timestamp s e (e.sub s)
    ((p1.1).getD (.str "")) ((p2.1).getD .none) ((p3.1).getD .none)
    ((p4.1).getD .none) ((p5.1).getD .none) ((p6.1).getD .none)
    ((p7.1).getD .none) ((p8.1).getD .none) p8.2)

/-- `OutlineParser._parse_section`: strip the section, split into lines,
match the header regex (no match: return None, the section is skipped), parse
the time range (a ValueError aborts the parse), collect parameters. -/
def parse_section (sect : List Char) : Except ParseErr (Option Scene) :=
  match (pyStrip sect).splitOn '\n' with
  | [] => .ok Option.none
  | header :: rest =>
    match headerMatch header with
    | Option.none => .ok Option.none
    | some g =>
      match parse_timestamp (pyStrip g.2) with
      | .error er => .error er
      | .ok se =>
        .ok (some (buildScene (String.mk (pyStrip g.1)) (String.mk (pyStrip g.2))
          se.1 se.2 (parse_params rest)))

/-- The loop of `OutlineParser.parse` over a list of sections: sections whose
parse returns None are skipped, scenes are accumulated in order, a raised
ValueError aborts everything. -/
def parse_sections : List (List Char) → Except ParseErr (List Scene)
  | [] => .ok []
  | s :: rest =>
    match parse_section s with
    | .error er => .error er
    | .ok osc =>
      match parse_sections rest with
      | .error er => .error er
      | .ok scs =>
        .ok (match osc with
             | some sc => sc :: scs
             | Option.none => scs)

/-- `OutlineParser.parse` on the outline text: split at every
newline-hash-hash-space separator and parse every chunk after the first
(sections[1:], "skip document title"). -/
def parse (content : List Char) : Except ParseErr (List Scene) :=
  parse_sections ((splitSEP content).drop 1)

/-- Adjacent-pair overlap loop of `OutlineParser.validate`: one warning is
printed for each i with scenes[i].end_time > scenes[i+1].start_time; the
model returns the list of offending pairs. -/
def overlapPairs : List Scene → List (Scene × Scene)
  | a :: b :: rest =>
    (if PyFloat.lt b.start_time a.end_time then [(a, b)] else []) ++
      overlapPairs (b :: rest)
  | _ => []

/-- `OutlineParser.validate`: False (after a warning) when no scenes were
parsed; otherwise True, with one overlap warning per offending adjacent
pair.  The scene list itself is never modified. -/
def validate (scenes : List Scene) : Bool × List (Scene × Scene) :=
  if scenes.isEmpty then (false, [])
  else (true, overlapPairs scenes)

/-- A value stored in scene.__dict__: either an ordinary value or the params
dict.  The float-valued fields are carried as PyVal.float. -/
inductive DVal where
  | pv (v : PyVal)
  | dict (d : PyDict)
  deriving DecidableEq, Repr

/-- scene.__dict__, as passed to get_module and render by
`VideoEngine._show_build_plan` and `VideoEngine._render_scenes`.  Every
dataclass field is present as a key, whatever its value — this is the load
bearing fact for dispatch. -/
def Scene.dict (sc : Scene) : List (String × DVal) :=
  [("title", .pv (.str sc.title)), ("timestamp", .pv (.str sc.timestamp)),
   ("start_time", .pv (.float sc.start_time)), ("end_time", .pv (.float sc.end_time)),
   ("duration", .pv (.float sc.duration)), ("text", .pv sc.text),
   ("module", .pv sc.module), ("scene", .pv sc.scene),
   ("component", .pv sc.component), ("clip", .pv sc.clip),
   ("image", .pv sc.image), ("chart", .pv sc.chart), ("data", .pv sc.data),
   ("params", .dict sc.params)]

/-- Python: 'k' in scene_data. -/
def hasKey (d : List (String × DVal)) (k : String) : Bool :=
  d.any (fun p => p.1 == k)

/-- Python: scene_data[k] (lookup in scene.__dict__). -/
def dictFind (d : List (String × DVal)) (k : String) : Option DVal :=
  (d.find? (fun p => p.1 == k)).map (fun p => p.2)

/-- A backend module as the engine consumes it: its module_type tag and a
render call on scene.__dict__ that either returns an artifact path or raises
(Except.error). -/
structure Module where
  module_type : String
  render : List (String × DVal) → Except String String

/-- self.modules of ModuleRegistry: a dict from module_type tag to module. -/
abbrev Modules := List (String × Module)

/-- Dict assignment on the registry dict. -/
def modulesSet : Modules → String → Module → Modules
  | [], k, m => [(k, m)]
  | p :: d, k, m => if p.1 == k then (k, m) :: d else p :: modulesSet d k m

/-- ModuleRegistry.register: self.modules[module.module_type] = module (a
second registration under the same tag overwrites the first). -/
def registerModule (mods : Modules) (m : Module) : Modules :=
  modulesSet mods m.module_type m

/-- self.modules.get(tag). -/
def modulesGet (mods : Modules) (k : String) : Option Module :=
  (mods.find? (fun p => p.1 == k)).map (fun p => p.2)

/-- self.modules.get(x) for an arbitrary dict value x: the registry keys are
strings, so any non-string x (None, a number, a dict) misses. -/
def modulesGetD (mods : Modules) (v : DVal) : Option Module :=
  match v with
  | .pv (.str s) => modulesGet mods s
  | _ => Option.none

/-- ModuleRegistry.get_module(scene_data): the explicit branch fires whenever
the KEY 'module' is present in the dict (its value may be None); only
otherwise are the hint keys tried in order scene, component, clip, image,
chart-or-data, and finally the slides default. -/
def get_module (mods : Modules) (d : List (String × DVal)) : Option Module :=
  if hasKey d "module" then (dictFind d "module").bind (modulesGetD mods)
  else if hasKey d "scene" then modulesGet mods "manim"
  else if hasKey d "component" then modulesGet mods "remotion"
  else if hasKey d "clip" then modulesGet mods "clips"
  else if hasKey d "image" then modulesGet mods "images"
  else if hasKey d "chart" || hasKey d "data" then modulesGet mods "dataviz"
  else modulesGet mods "slides"

/-- An entry of the `rendered` list built by `VideoEngine._render_scenes`:
the scene, the artifact path and the backend tag. -/
structure Rendered where
  scene : Scene
  video_path : String
  module : String
  deriving DecidableEq, Repr

/-- The per-scene loop of `VideoEngine._render_scenes`: scenes in parse
order; no module: warn and skip; render raising: catch, log and skip; only a
successful render appends a record. -/
def renderScenes (mods : Modules) : List Scene → List Rendered
  | [] => []
  | sc :: rest =>
    match get_module mods sc.dict with
    | Option.none => renderScenes mods rest
    | some m =>
      match m.render sc.dict with
      | .ok p => Rendered.mk sc p m.module_type :: renderScenes mods rest
      | .error _ => renderScenes mods rest

/-- The record `_render_scenes` would append for one scene, used to state
that the loop is an order-preserving filterMap. -/
def renderOne (mods : Modules) (sc : Scene) : Option Rendered :=
  match get_module mods sc.dict with
  | Option.none => Option.none
  | some m =>
    match m.render sc.dict with
    | .ok p => some (Rendered.mk sc p m.module_type)
    | .error _ => Option.none

/-! Concrete instances used by the claim theorems and witnesses.  The engine
(`VideoEngine._register_modules`) registers manim, remotion and images; a
slides module is added here as well, to show that even a registered slides
backend is never produced by the fallback branch for parser-made scenes. -/

def manimMod : Module := Module.mk "manim" (fun _ => .ok "renders/manim/out.mp4")

def remotionMod : Module := Module.mk "remotion" (fun _ => .ok "renders/remotion/out.mp4")

def imagesMod : Module := Module.mk "images" (fun _ => .ok "renders/images/out.mp4")

def slidesMod : Module := Module.mk "slides" (fun _ => .ok "renders/slides/out.mp4")

def demoRegistry : Modules :=
  [("manim", manimMod), ("remotion", remotionMod), ("images", imagesMod),
   ("slides", slidesMod)]

/-- A backend whose render raises exactly on the scene titled "B". -/
def flakyMod : Module :=
  Module.mk "flaky"
    (fun d => if dictFind d "title" = some (.pv (.str "B")) then .error "boom"
              else .ok "renders/flaky/out.mp4")

def flakyRegistry : Modules := [("flaky", flakyMod)]

/-- A scene with an explicit MODULE tag, as `_render_scenes` resolves it. -/
def taggedScene (t : String) (tag : String) : Scene :=
  Scene.mk t "0-1" ⟨0, 1⟩ ⟨1, 1⟩ ⟨1, 1⟩ (.str "") (.str tag) .none .none .none
    .none .none .none []

/-- Scene with window [a, b] and no other content, for validate. -/
def windowScene (t : String) (a b : Int) : Scene :=
  Scene.mk t "w" ⟨a, 1⟩ ⟨b, 1⟩ ⟨b - a, 1⟩ (.str "") .none .none .none .none
    .none .none .none []

/-- Parser-made scene carrying both a math hint and a UI hint and no MODULE
line (the C1 situation), exactly as parse produces it. -/
def c1Outline : List Char := "x\n## Both [0:00-0:10]\nSCENE: Graph\nCOMPONENT: Card".data

def c1Scene : Scene :=
  Scene.mk "Both" "0:00-0:10" ⟨0, 1⟩ ⟨10, 1⟩ ⟨10, 1⟩ (.str "") .none
    (.str "Graph") (.str "Card") .none .none .none .none []

def c1OutlineRev : List Char := "x\n## Both [0:00-0:10]\nCOMPONENT: Card\nSCENE: Graph".data

/-- Parser-made scene with no explicit tag and no hint at all (the C2
situation). -/
def c2Outline : List Char := "x\n## Plain [0:00-0:10]\nTEXT: hi".data

def c2Scene : Scene :=
  Scene.mk "Plain" "0:00-0:10" ⟨0, 1⟩ ⟨10, 1⟩ ⟨10, 1⟩ (.str "hi") .none .none
    .none .none .none .none .none []

/-- Outline whose middle section has a header that does not match the
regex. -/
def c4Outline : List Char :=
  "d\n## Good [0-10]\nTEXT: hi\n## BadHeader\n## Fine [20-30]\nTEXT: ok".data

def c4SceneGood : Scene :=
  Scene.mk "Good" "0-10" ⟨0, 1⟩ ⟨10, 1⟩ ⟨10, 1⟩ (.str "hi") .none .none .none
    .none .none .none .none []

def c4SceneFine : Scene :=
  Scene.mk "Fine" "20-30" ⟨20, 1⟩ ⟨30, 1⟩ ⟨10, 1⟩ (.str "ok") .none .none .none
    .none .none .none .none []

/-- Section whose time range runs backwards: end 5 before start 10. -/
def c5Outline : List Char := "x\n## S [0:10-0:05]".data

def c5Scene : Scene :=
  Scene.mk "S" "0:10-0:05" ⟨10, 1⟩ ⟨5, 1⟩ ⟨-5, 1⟩ (.str "") .none .none .none
    .none .none .none .none []

def c5ArityOutline : List Char := "x\n## S [1-2-3]".data

/-- An outline whose very first characters are a heading line. -/
def c6Outline : List Char := "## Intro [0:00-0:10]\nTEXT: hi".data

def c6Pre : List Char := "# My Video Outline".data

def c6Rest : List Char := "Intro [0:00-0:10]\nTEXT: hi".data

def c6Scene : Scene :=
  Scene.mk "Intro" "0:00-0:10" ⟨0, 1⟩ ⟨10, 1⟩ ⟨10, 1⟩ (.str "hi") .none .none
    .none .none .none .none .none []

/-- Section repeating the TEXT key on two lines. -/
def c9Outline : List Char := "x\n## Dup [0-10]\nTEXT: first\nTEXT: second".data

def c9Scene : Scene :=
  Scene.mk "Dup" "0-10" ⟨0, 1⟩ ⟨10, 1⟩ ⟨10, 1⟩ (.str "second") .none .none
    .none .none .none .none .none []

/-- Scene whose explicit tag names a module absent from the registry. -/
def ghostScene : Scene :=
  Scene.mk "G" "0-1" ⟨0, 1⟩ ⟨1, 1⟩ ⟨1, 1⟩ (.str "") (.str "ghost")
    (.str "Graph") .none .none .none .none .none []

/-! Helper lemmas (shared). -/

theorem dictGet_set_self (d : PyDict) (k : String) (v : PyVal) :
    dictGet (dictSet d k v) k = some v := by
  induction d with
  | nil => simp [dictSet, dictGet]
  | cons p d ih =>
    by_cases hp : p.1 = k
    · simp [dictSet, dictGet, hp]
    · simp [dictSet, dictGet, hp, ih]

theorem dictGet_set_other (d : PyDict) (k k2 : String) (v : PyVal) (h : k2 ≠ k) :
    dictGet (dictSet d k2 v) k = dictGet d k := by
  induction d with
  | nil => simp [dictSet, dictGet, h]
  | cons p d ih =>
    by_cases hp : p.1 = k2
    · simp [dictSet, dictGet, hp, h, ih]
    · by_cases hak : p.1 = k
      · simp [dictSet, dictGet, hp, hak, Ne.symm h]
      · simp [dictSet, dictGet, hp, hak, ih]

/-- Folding `_parse_params` over lines none of which carries key k leaves the
binding of k unchanged. -/
theorem parse_params_keep (k : String) (ls : List (List Char)) :
    ∀ d : PyDict, (∀ l ∈ ls, ¬ ((lineKV l).map Prod.fst = some k)) →
      dictGet (ls.foldl paramStep d) k = dictGet d k := by
  induction ls with
  | nil => intro d _; rfl
  | cons l rest ih =>
    intro d h
    rw [List.foldl_cons, ih (paramStep d l) (fun x hx => h x (List.mem_cons_of_mem l hx))]
    unfold paramStep
    cases hkv : lineKV l with
    | none => rfl
    | some kv =>
      have hne : kv.1 ≠ k := by
        intro hk
        exact h l (List.mem_cons_self l rest) (by simp [hkv, hk])
      exact dictGet_set_other d k kv.1 kv.2 hne

theorem buildScene_duration (title timestamp : String) (s e : PyFloat) (ps : PyDict) :
    (buildScene title timestamp s e ps).duration =
      (buildScene title timestamp s e ps).end_time.sub
        (buildScene title timestamp s e ps).start_time := by
  unfold buildScene scenePostInit
  dsimp only
  split <;> rfl

theorem parse_section_ok_duration (sect : List Char) (sc : Scene)
    (h : parse_section sect = .ok (some sc)) :
    sc.duration = sc.end_time.sub sc.start_time := by
  unfold parse_section at h
  split at h
  · simp at h
  · split at h
    · simp at h
    · split at h
      · simp at h
      · injection h with h1
        injection h1 with h2
        rw [← h2]
        apply buildScene_duration

theorem parse_sections_duration : ∀ (sects : List (List Char)) (scenes : List Scene),
    parse_sections sects = .ok scenes →
      ∀ sc ∈ scenes, sc.duration = sc.end_time.sub sc.start_time := by
  intro sects
  induction sects with
  | nil =>
    intro scenes h sc hsc
    injection h with h1
    rw [← h1] at hsc
    simp at hsc
  | cons s rest ih =>
    intro scenes h sc hsc
    unfold parse_sections at h
    split at h
    · simp at h
    · next osc heq1 =>
      split at h
      · simp at h
      · next scs heq2 =>
        injection h with h1
        rw [← h1] at hsc
        cases osc with
        | none => exact ih scs heq2 sc hsc
        | some sc0 =>
          rcases List.mem_cons.mp hsc with h3 | h3
          · rw [h3]
            exact parse_section_ok_duration s sc0 heq1
          · exact ih scs heq2 sc h3

/-- splitSEP steps over a head that does not open a separator occurrence. -/
theorem splitSEP_cons_ne (c : Char) (cs : List Char)
    (h : ¬ (c = '\n' ∧ ∃ t, cs = '#' :: '#' :: ' ' :: t)) :
    splitSEP (c :: cs) = consHead c (splitSEP cs) := by
  rw [splitSEP.eq_def]
  split
  · next rest heq =>
    exfalso
    injection heq with h1 h2
    exact h ⟨h1, rest, h2⟩
  · next c2 cs2 hcond heq =>
    injection heq with h1 h2
    rw [h1, h2]
  · next heq => exact absurd heq (by simp)

/-- The split of preamble ++ separator ++ rest: when the separator does not
occur inside the preamble, the preamble is exactly the first chunk.  (A
separator occurrence cannot straddle the boundary either: it would have to
start with the newline character inside the preamble, and the case analysis
below rules every overlap out.) -/
theorem splitSEP_preamble : ∀ (pre rest : List Char), ¬ (SEPchars <:+: pre) →
    splitSEP (pre ++ SEPchars ++ rest) = pre :: splitSEP rest := by
  intro pre
  induction pre with
  | nil => intro rest _; rfl
  | cons c cs ih =>
    intro rest h
    have hcs : ¬ (SEPchars <:+: cs) := by
      intro hin
      rcases hin with ⟨u, w, huw⟩
      exact h ⟨c :: u, w, by rw [← huw]; rfl⟩
    have hne : ¬ (c = '\n' ∧ ∃ t, cs ++ SEPchars ++ rest = '#' :: '#' :: ' ' :: t) := by
      rintro ⟨rfl, t, ht⟩
      rcases cs with _ | ⟨a, _ | ⟨b, _ | ⟨d, cs3⟩⟩⟩
      · simp only [List.nil_append, SEPchars, List.cons_append] at ht
        injection ht with h1 _
        exact absurd h1 (by decide)
      · simp only [List.cons_append, List.nil_append, SEPchars] at ht
        injection ht with h1 ht
        injection ht with h2 _
        exact absurd h2 (by decide)
      · simp only [List.cons_append, List.nil_append, SEPchars] at ht
        injection ht with h1 ht
        injection ht with h2 ht
        injection ht with h3 _
        exact absurd h3 (by decide)
      · simp only [List.cons_append, List.nil_append, SEPchars] at ht
        injection ht with h1 ht
        injection ht with h2 ht
        injection ht with h3 _
        exact h ⟨[], cs3, by rw [h1, h2, h3]; rfl⟩
    have step : (c :: cs) ++ SEPchars ++ rest = c :: (cs ++ SEPchars ++ rest) := rfl
    rw [step, splitSEP_cons_ne c (cs ++ SEPchars ++ rest) hne, ih rest hcs]
    rfl

/-- The overlap-warning loop of validate filters the adjacent pairs. -/
theorem overlapPairs_eq_zip (l : List Scene) :
    overlapPairs l = (l.zip l.tail).filter
      (fun p => PyFloat.lt p.2.start_time p.1.end_time) := by
  induction l with
  | nil => rfl
  | cons a tl ih =>
    cases tl with
    | nil => rfl
    | cons b rest =>
      rw [show (a :: b :: rest).zip (a :: b :: rest).tail =
            (a, b) :: ((b :: rest).zip rest) from rfl]
      rw [List.filter_cons]
      show (if PyFloat.lt b.start_time a.end_time then [(a, b)] else []) ++
          overlapPairs (b :: rest) = _
      rw [ih]
      rw [show (b :: rest).zip (b :: rest).tail = (b :: rest).zip rest from rfl]
      by_cases hab : PyFloat.lt b.start_time a.end_time
      · simp [hab]
      · simp [hab]

/-! Claim theorems. -/

/-- Claim C1 (code bug in the source): the spec requires a Scene with no
explicit tag but both a math hint (SCENE) and a UI hint (COMPONENT) to
resolve to the manim backend in either declaration order.  In the code,
get_module tests key presence ('module' in scene_data) on scene.__dict__,
where the dataclass field module always exists (value None), so it executes
self.modules.get(None) and returns no module: with manim registered, both
hint orders resolve to nothing instead of the manim module. -/
theorem C1_both_hints_resolve_to_none :
    parse c1Outline = .ok [c1Scene] ∧
    parse c1OutlineRev = .ok [c1Scene] ∧
    c1Scene.module = PyVal.none ∧
    c1Scene.scene = PyVal.str "Graph" ∧
    c1Scene.component = PyVal.str "Card" ∧
    (modulesGet demoRegistry "manim").isSome = true ∧
    get_module demoRegistry c1Scene.dict = Option.none :=
  ⟨rfl, rfl, rfl, rfl, rfl, rfl, rfl⟩

/-- Claim C2 (code bug in the source): the spec requires a Scene with no
explicit tag and no hint field to resolve to the slides tag.  For the same
reason as C1 the fallback branch is unreachable from the Orchestrator: even
with a slides module registered, resolution of a parser-made hintless Scene
returns no module (self.modules.get(None)). -/
theorem C2_default_fallback_unreachable :
    parse c2Outline = .ok [c2Scene] ∧
    c2Scene.module = PyVal.none ∧
    c2Scene.scene = PyVal.none ∧
    c2Scene.component = PyVal.none ∧
    c2Scene.clip = PyVal.none ∧
    c2Scene.image = PyVal.none ∧
    c2Scene.chart = PyVal.none ∧
    c2Scene.data = PyVal.none ∧
    (modulesGet demoRegistry "slides").isSome = true ∧
    get_module demoRegistry c2Scene.dict = Option.none :=
  ⟨rfl, rfl, rfl, rfl, rfl, rfl, rfl, rfl, rfl, rfl⟩

/-- Claim C3 (confirmed): scene.__dict__ always contains the key 'module'
(the dataclass field exists even when None), so get_module called on it
always takes the explicit-tag branch — its value is modules.get of the
module field for every Scene — and a Scene whose section had no MODULE line
(module = None) resolves to no module; the hint checks and the slides
fallback are never reached from the Orchestrator. -/
theorem C3_dict_always_has_module_key (sc : Scene) (mods : Modules) :
    hasKey sc.dict "module" = true ∧
    get_module mods sc.dict = modulesGetD mods (.pv sc.module) ∧
    (sc.module = PyVal.none → get_module mods sc.dict = Option.none) :=
  ⟨rfl, rfl, fun h => by
    rw [show get_module mods sc.dict = modulesGetD mods (.pv sc.module) from rfl, h]
    rfl⟩

/-- Witness for C3 at a concrete hintless parser-made scene and the demo
registry. -/
theorem C3_dict_always_has_module_key_witness :
    get_module demoRegistry c2Scene.dict = Option.none :=
  (C3_dict_always_has_module_key c2Scene demoRegistry).2.2 rfl

/-- Counterexample to claim C4 as stated: on an outline whose middle section
has a malformed header, parse does not fail and does not abort — it returns
the partial scene list made of the two well-formed sections. -/
theorem C4_bad_header_counterexample :
    parse c4Outline = .ok [c4SceneGood, c4SceneFine] := rfl

/-- Claim C4 (amended): a section whose first line does not match the
header shape is silently skipped — it contributes neither a Scene nor an
error — and parsing continues with the remaining sections; no
MalformedHeader failure exists in the code (only hyphen-arity, colon-arity
and float-conversion ValueErrors abort the parse). -/
theorem C4_bad_header_section_skipped (sect : List Char) (rest : List (List Char))
    (header : List Char) (tl : List (List Char))
    (hsplit : (pyStrip sect).splitOn '\n' = header :: tl)
    (hhdr : headerMatch header = Option.none) :
    parse_sections (sect :: rest) = parse_sections rest := by
  have hskip : parse_section sect = .ok Option.none := by
    unfold parse_section
    rw [hsplit]
    dsimp only
    rw [hhdr]
  show (match parse_section sect with
    | .error er => .error er
    | .ok osc =>
      match parse_sections rest with
      | .error er => .error er
      | .ok scs =>
        .ok (match osc with
             | some sc => sc :: scs
             | Option.none => scs)) = parse_sections rest
  rw [hskip]
  cases hr : parse_sections rest <;> rfl

/-- Witness for C4 amended: dropping the concrete bad-header section leaves
the parse of the remaining section unchanged. -/
theorem C4_bad_header_section_skipped_witness :
    parse_sections [ "BadHeader".data, "Fine [20-30]\nTEXT: ok".data] =
      parse_sections [ "Fine [20-30]\nTEXT: ok".data] :=
  C4_bad_header_section_skipped "BadHeader".data
    [ "Fine [20-30]\nTEXT: ok".data] "BadHeader".data [] rfl rfl

/-- Counterexample to claim C5 as stated: a section with range 0:10-0:05
parses successfully into a Scene with end_time 5 < start_time 10 and
duration -5; no MalformedTimestamp failure occurs. -/
theorem C5_nonpositive_duration_counterexample :
    parse c5Outline = .ok [c5Scene] ∧
    PyFloat.lt c5Scene.end_time c5Scene.start_time = true ∧
    PyFloat.lt c5Scene.duration ⟨0, 1⟩ = true :=
  ⟨rfl, rfl, rfl⟩

/-- Claim C5 (amended): the parser never compares end against start — a
non-positive duration is accepted — but every Scene it returns does satisfy
duration = end_time - start_time; the only timestamp failures are
structural, e.g. a range with two hyphens aborts the parse with the
invalid-timestamp ValueError. -/
theorem C5_duration_eq_end_minus_start :
    (∀ (content : List Char) (scenes : List Scene),
      parse content = .ok scenes →
        ∀ sc ∈ scenes, sc.duration = sc.end_time.sub sc.start_time) ∧
    parse c5ArityOutline = .error (.invalidTimestampFormat "1-2-3") := by
  constructor
  · intro content scenes h
    exact parse_sections_duration _ _ h
  · rfl

/-- Witness for C5 amended at a concrete parse. -/
theorem C5_duration_eq_end_minus_start_witness :
    parse c5Outline = .ok [c5Scene] ∧
    c5Scene.duration = c5Scene.end_time.sub c5Scene.start_time :=
  ⟨rfl, C5_duration_eq_end_minus_start.1 c5Outline [ c5Scene] rfl c5Scene
    (List.mem_singleton.mpr rfl)⟩

/-- Counterexample to claim C6 as stated: an outline whose very first
characters are a heading line yields no Scene at all — the heading is not
preceded by a newline, so it lands in sections[0] and is discarded as
preamble. -/
theorem C6_heading_at_start_counterexample :
    parse "## Intro [0:00-0:10]\nTEXT: hi".data = .ok [] := rfl

/-- Claim C6 (amended): parse discards exactly the text before the first
occurrence of the newline-##-space separator (so a heading at the very start
of the file, lacking the preceding newline, is discarded with the preamble),
and parses every chunk after a separator. -/
theorem C6_preamble_discarded (pre rest : List Char) (h : ¬ (SEPchars <:+: pre)) :
    parse (pre ++ SEPchars ++ rest) = parse_sections (splitSEP rest) := by
  unfold parse
  rw [splitSEP_preamble pre rest h]
  rfl

/-- Witness for C6 amended: with a one-line document title as preamble, the
same section text yields its Scene. -/
theorem C6_preamble_discarded_witness :
    parse (c6Pre ++ SEPchars ++ c6Rest) = parse_sections (splitSEP c6Rest) ∧
    parse_sections (splitSEP c6Rest) = .ok [c6Scene] :=
  ⟨C6_preamble_discarded c6Pre c6Rest (by decide), rfl⟩

/-- Claim C7 (confirmed): validate fails exactly when zero scenes were
parsed; otherwise it succeeds and emits exactly one overlap warning per
adjacent pair in parse order whose earlier end exceeds the later start (the
scene list is never reordered or filtered — validate only reads it).  The
second conjunct is the spec example: windows [0,10] and [5,15] produce
success plus exactly one warning. -/
theorem C7_validate_empty_and_overlap :
    (∀ scenes : List Scene,
      ((validate scenes).1 = false ↔ scenes = []) ∧
      (validate scenes).2 = (scenes.zip scenes.tail).filter
        (fun p => PyFloat.lt p.2.start_time p.1.end_time)) ∧
    validate [windowScene "A" 0 10, windowScene "B" 5 15] =
      (true, [(windowScene "A" 0 10, windowScene "B" 5 15)]) := by
  constructor
  · intro scenes
    constructor
    · cases scenes with
      | nil => simp [validate]
      | cons a tl => simp [validate]
    · cases scenes with
      | nil => rfl
      | cons a tl =>
        show overlapPairs (a :: tl) = _
        exact overlapPairs_eq_zip (a :: tl)
  · rfl

/-- Claim C8 (confirmed): the render loop is an order-preserving filterMap —
a Render Record is produced exactly for the scenes whose module resolved and
whose render returned without raising, in parse order; a raising render is
caught and only skips its own scene.  The second conjunct is the spec
example: of three scenes whose backend raises exactly on the second, records
are produced for the first and third. -/
theorem C8_render_loop_partial_success :
    (∀ (mods : Modules) (scenes : List Scene),
      renderScenes mods scenes = scenes.filterMap (renderOne mods)) ∧
    renderScenes flakyRegistry
        [taggedScene "A" "flaky", taggedScene "B" "flaky", taggedScene "C" "flaky"] =
      [Rendered.mk (taggedScene "A" "flaky") "renders/flaky/out.mp4" "flaky",
       Rendered.mk (taggedScene "C" "flaky") "renders/flaky/out.mp4" "flaky"] := by
  constructor
  · intro mods scenes
    induction scenes with
    | nil => rfl
    | cons sc rest ih =>
      cases hm : get_module mods sc.dict with
      | none => simp [renderScenes, renderOne, hm, ih]
      | some m =>
        cases hr : m.render sc.dict with
        | ok p => simp [renderScenes, renderOne, hm, hr, ih]
        | error e => simp [renderScenes, renderOne, hm, hr, ih]
  · rfl

/-- Counterexample to claim C9 as stated: with TEXT authored on two lines
(first, then second), the Scene stores the second value — the first
occurrence does not win. -/
theorem C9_first_match_wins_counterexample :
    parse c9Outline = .ok [c9Scene] ∧ c9Scene.text = PyVal.str "second" :=
  ⟨rfl, rfl⟩

/-- Claim C9 (amended): duplicate keys resolve last-match-wins — the dict
built by `_parse_params` maps a key to the value of its last occurrence
(each assignment overwrites the previous binding), so the Scene slot popped
from it carries the last occurrence. -/
theorem C9_last_occurrence_wins (ls1 : List (List Char)) (l : List Char)
    (ls2 : List (List Char)) (k : String) (v : PyVal)
    (hl : lineKV l = some (k, v))
    (h2 : ∀ l2 ∈ ls2, ¬ ((lineKV l2).map Prod.fst = some k)) :
    dictGet (parse_params (ls1 ++ l :: ls2)) k = some v := by
  unfold parse_params
  rw [List.foldl_append, List.foldl_cons, parse_params_keep k ls2 _ h2]
  unfold paramStep
  rw [hl]
  exact dictGet_set_self _ k v

/-- Witness for C9 amended: an earlier TEXT line is overwritten by the last
TEXT line even with an unrelated line after it. -/
theorem C9_last_occurrence_wins_witness :
    dictGet (parse_params ([ "TEXT: a".data] ++ "TEXT: b".data :: [ "OTHER: c".data]))
      "TEXT" = some (.str "b") :=
  C9_last_occurrence_wins [ "TEXT: a".data] "TEXT: b".data [ "OTHER: c".data]
    "TEXT" (.str "b") rfl (by decide)

/-- Claim C10 (confirmed): when the Scene's explicit tag names a module that
is not registered, resolution returns no module — it neither consults the
hint fields nor falls back to the slides default (the scene and mods here
are arbitrary: the hint fields may be populated and a slides module may be
registered). -/
theorem C10_unregistered_explicit_tag_no_fallback (mods : Modules) (sc : Scene)
    (tag : String) (h1 : sc.module = PyVal.str tag)
    (h2 : modulesGet mods tag = Option.none) :
    get_module mods sc.dict = Option.none := by
  rw [show get_module mods sc.dict = modulesGetD mods (.pv sc.module) from rfl, h1]
  exact h2

/-- Witness for C10: a scene with explicit tag ghost and a populated math
hint, against a registry holding manim, remotion, images and slides but no
ghost, resolves to nothing. -/
theorem C10_unregistered_explicit_tag_no_fallback_witness :
    get_module demoRegistry ghostScene.dict = Option.none :=
  C10_unregistered_explicit_tag_no_fallback demoRegistry ghostScene "ghost" rfl rfl

end VideoProd
